import Mathlib

/-!
Verification development for the math-to-TeX conversion core
(`src/library/src/math/mod.rs`): the `Texifier` output builder, the
`Texify` dispatch over content nodes, the parenthesis-elision pass
(`texify_unparen`), the accent extraction/normalization (`extract`,
`AccNode::construct`) and the error behaviour of the traversal.

Strings are modelled as `List Char` (all the markup directives involved
are ASCII, so Rust byte indices used by the source coincide with
character indices whenever the source's guards hold).

External crates used by the source are modelled as parameters collected
in `Ctx`:
  * `unicode_math::SYMBOLS` (an immutable list of symbol entries with a
    codepoint, a command name and an atom-type classification),
  * `symmie::get` (symbol-name resolution to a codepoint),
  * `unicode_segmentation`'s grapheme count (used by `AtomNode::texify`
    only through `graphemes(true).count() > 1`).
Theorems quantify over this context; concrete sample contexts are used
for closed evaluations.
-/

namespace TypstMath

/-- Characters of a string literal, the model of a Rust `&str` / `EcoString`. -/
def chrs (s : String) : List Char := s.toList

/-- Classification carried by a `unicode_math` symbol entry. Only the
comparison with `AtomType::Accent` is ever performed by the source, so the
remaining variants are collapsed into `ordinary`. -/
inductive AtomType where
  | accent
  | ordinary
deriving DecidableEq, Repr

/-- Entry of the `unicode_math::SYMBOLS` table: a codepoint, the TeX command
name and the atom-type classification. -/
structure Sym where
  codepoint : Char
  name : List Char
  atomType : AtomType
deriving DecidableEq, Repr

/-- External tables the source depends on, as parameters: the
`unicode_math::SYMBOLS` list, the `symmie::get` name resolver, and the
grapheme counter of `unicode_segmentation`. -/
structure Ctx where
  symbols : List Sym
  symmie : String → Option Char
  graphemeCount : List Char → Nat

/-- Source location and message of a `bail!(span, msg)` error. -/
structure SpanError where
  span : Nat
  msg : String
deriving DecidableEq, Repr

mutual
/-- Content nodes reaching `Texify`, one constructor per node type the
dispatch in `impl Texify for Content` distinguishes: `SpaceNode`,
`LinebreakNode`, `SymbolNode` (with its optional source span),
`TextNode`, `SequenceNode`, `MathNode`, plus the `#[capable(Texify)]`
math nodes, and `foreign` for a node that matches none of those
downcasts and has no `Texify` capability (the final fallthrough of
`Content::texify`, with its optional source span). -/
inductive Content where
  | space
  | linebreak
  | symbol (name : String) (span : Option Nat)
  | text (s : List Char)
  | seq (children : ContentList)
  | math (block : Bool) (children : ContentList)
  | atom (s : List Char)
  | acc (base : Content) (accent : Char)
  | frac (num denom : Content)
  | binom (upper lower : Content)
  | script (base : Content) (sub sup : OptContent)
  | alignPoint (index : Nat)
  | sqrtN (body : Content)
  | floorN (body : Content)
  | ceilN (body : Content)
  | foreign (span : Option Nat)
/-- Ordered children of a `MathNode` / `SequenceNode` (a `Vec<Content>`). -/
inductive ContentList where
  | nil
  | cons (c : Content) (cs : ContentList)
/-- An `Option<Content>` field (`ScriptNode::sub` / `ScriptNode::sup`). -/
inductive OptContent where
  | noneC
  | someC (c : Content)
end

/-- Concatenation of children lists. -/
def ContentList.append : ContentList → ContentList → ContentList
  | .nil, ys => ys
  | .cons x xs, ys => .cons x (xs.append ys)

/-- The `Texifier` output builder: the `tex` buffer, the pending
`support` flag and the pending weak-`space` flag. The `styles` field of
the source is never consulted by any `texify` path and is omitted. -/
structure Texifier where
  tex : List Char
  support : Bool
  space : Bool
deriving DecidableEq, Repr

namespace Texifier

/-- Rust `Texifier::new`: empty buffer, both flags clear. -/
def new : Texifier := ⟨[], false, false⟩

/-- Rust `Texifier::finish`: return the buffer. -/
def finish (t : Texifier) : List Char := t.tex

/-- Rust `Texifier::push_space`: `self.space = !self.tex.is_empty()`. -/
def pushSpace (t : Texifier) : Texifier :=
  { t with space := !t.tex.isEmpty }

/-- Rust `Texifier::support`: set the support flag. -/
def markSupport (t : Texifier) : Texifier :=
  { t with support := true }

/-- Rust `Texifier::flush`: emit `"\\ "` when both flags are set, then
clear both flags. -/
def flush (t : Texifier) : Texifier :=
  let t := if t.space && t.support then { t with tex := t.tex ++ chrs "\\ " } else t
  { t with space := false, support := false }

/-- Rust `Texifier::push_str`: flush, then append. -/
def pushStr (t : Texifier) (s : List Char) : Texifier :=
  let t := t.flush
  { t with tex := t.tex ++ s }

/-- Character class passed through unchanged by `push_escaped`:
ASCII letters and digits, Greek letters, and the listed operators. -/
def plainChar (c : Char) : Bool :=
  (decide ('a' ≤ c) && decide (c ≤ 'z')) ||
  (decide ('A' ≤ c) && decide (c ≤ 'Z')) ||
  (decide ('0' ≤ c) && decide (c ≤ '9')) ||
  (decide ('Α' ≤ c) && decide (c ≤ 'Ω')) ||
  (decide ('α' ≤ c) && decide (c ≤ 'ω')) ||
  c == '*' || c == '+' || c == '-' || c == '?' || c == '!' || c == '=' ||
  c == '<' || c == '>' || c == ':' || c == ',' || c == ';' || c == '|' ||
  c == '/' || c == '@' || c == '.' || c == '"'

/-- Rust `Texifier::push_escaped`: flush, then write the escaped form of
one character; a codepoint in none of the explicit classes is looked up in
the symbol table and silently dropped when absent. -/
def pushEscaped (t : Texifier) (ctx : Ctx) (c : Char) : Texifier :=
  let t := t.flush
  if c = ' ' then { t with tex := t.tex ++ chrs "\\ " }
  else if c = '%' || c = '&' || c = '$' || c = '#' then
    { t with tex := t.tex ++ ['\\', c, ' '] }
  else if c = '\x7b' then { t with tex := t.tex ++ chrs "\\left\\\x7b" }
  else if c = '\x7d' then { t with tex := t.tex ++ chrs "\\right\\\x7d" }
  else if c = '[' || c = '(' then { t with tex := t.tex ++ chrs "\\left" ++ [c] }
  else if c = ']' || c = ')' then { t with tex := t.tex ++ chrs "\\right" ++ [c] }
  else if plainChar c then { t with tex := t.tex ++ [c] }
  else
    match ctx.symbols.find? (fun sym => sym.codepoint == c) with
    | some sym => { t with tex := t.tex ++ '\\' :: sym.name ++ [' '] }
    | none => t

/-- The `for c in node.0.chars() { t.push_escaped(c) }` loop of the
`TextNode` branch. -/
def pushEscapedList (t : Texifier) (ctx : Ctx) (s : List Char) : Texifier :=
  s.foldl (fun t c => t.pushEscaped ctx c) t

/-- The character loop of `AtomNode::texify`: support is marked before and
after every `'|'` character. -/
def atomChars (t : Texifier) (ctx : Ctx) (s : List Char) : Texifier :=
  s.foldl
    (fun t c =>
      let supportive := c == '|'
      let t := if supportive then t.markSupport else t
      let t := t.pushEscaped ctx c
      if supportive then t.markSupport else t)
    t

end Texifier

/-- The opening auto-sizing parenthesis directive `"\\left("`. -/
def leftParenD : List Char := chrs "\\left("

/-- The closing auto-sizing parenthesis directive `"\\right)"`. -/
def rightParenD : List Char := chrs "\\right)"

/-- Rust `str::starts_with` on the list model. -/
def startsWithL (s p : List Char) : Bool := s.take p.length == p

/-- Rust `str::ends_with` on the list model. -/
def endsWithL (s p : List Char) : Bool := s.drop (s.length - p.length) == p

/-- The trimming step of `Texify::texify_unparen`: when the buffer starts
with `"\\left("` and ends with `"\\right)"`, keep `s[6..s.len()-7]`;
otherwise keep the buffer unchanged. -/
def unparen (s : List Char) : List Char :=
  if startsWithL s leftParenD && endsWithL s rightParenD then
    (s.drop 6).take (s.length - 13)
  else s

mutual
/-- Dispatch of `impl Texify for Content` together with the per-node
`texify` implementations. A `SymbolNode` whose name does not resolve and
which carries no span falls through every later downcast (it is no
`TextNode` or `SequenceNode`, and has no `Texify` capability since the
trait is private to the module) and reaches the final span-guarded bail
with the same absent span, hence returns `Ok` unchanged; this fallthrough
is collapsed into the `symbol` branch. In the `frac` and `script`
branches the body of `texify_unparen` is inlined: the operand is rendered
into a fresh sub-texifier, trimmed by `unparen`, and pushed. -/
def texifyContent (ctx : Ctx) : Content → Texifier → Except SpanError Texifier
  | .space, t => .ok t.pushSpace
  | .linebreak, t => .ok (t.pushStr (chrs "\\"))
  | .symbol name sp, t =>
    (match ctx.symmie name with
     | some c => .ok (t.pushEscaped ctx c)
     | none =>
       match sp with
       | some s => .error ⟨s, "unknown symbol"⟩
       | none => .ok t)
  | .text s, t =>
    .ok ((((t.markSupport.pushStr (chrs "\\mathrm\x7b")).pushEscapedList ctx s).pushStr
      (chrs "\x7d")).markSupport)
  | .seq cs, t => texifyList ctx cs t
  | .math _ cs, t => texifyList ctx cs t
  | .atom s, t =>
    let multi := ctx.graphemeCount s > 1
    let t := if multi then t.pushStr (chrs "\\mathrm\x7b") else t
    let t := t.atomChars ctx s
    .ok (if multi then t.pushStr (chrs "\x7d") else t)
  | .acc base accent, t =>
    (match ctx.symbols.find? (fun sym =>
        sym.codepoint == accent && sym.atomType == AtomType.accent) with
     | some sym =>
       let t := t.pushStr (chrs "\\")
       let t := t.pushStr sym.name
       let t := t.pushStr (chrs "\x7b")
       (match texifyContent ctx base t with
        | .error e => .error e
        | .ok t => .ok (t.pushStr (chrs "\x7d")))
     | none => texifyContent ctx base t)
  | .frac num denom, t =>
    let t := t.pushStr (chrs "\\frac\x7b")
    (match texifyContent ctx num Texifier.new with
     | .error e => .error e
     | .ok sub =>
       let t := t.pushStr (unparen sub.finish)
       let t := t.pushStr (chrs "\x7d\x7b")
       (match texifyContent ctx denom Texifier.new with
        | .error e => .error e
        | .ok sub =>
          let t := t.pushStr (unparen sub.finish)
          .ok (t.pushStr (chrs "\x7d"))))
  | .binom upper lower, t =>
    let t := t.pushStr (chrs "\\binom\x7b")
    (match texifyContent ctx upper t with
     | .error e => .error e
     | .ok t =>
       let t := t.pushStr (chrs "\x7d\x7b")
       (match texifyContent ctx lower t with
        | .error e => .error e
        | .ok t => .ok (t.pushStr (chrs "\x7d"))))
  | .script base sub sup, t =>
    (match texifyContent ctx base t with
     | .error e => .error e
     | .ok t =>
       (match texifySub ctx sub t with
        | .error e => .error e
        | .ok t => texifySup ctx sup t))
  | .alignPoint _, t => .ok t
  | .sqrtN body, t =>
    let t := t.pushStr (chrs "\\sqrt\x7b")
    (match texifyContent ctx body t with
     | .error e => .error e
     | .ok t => .ok (t.pushStr (chrs "\x7d")))
  | .floorN body, t =>
    let t := t.pushStr (chrs "\\left\\lfloor ")
    (match texifyContent ctx body t with
     | .error e => .error e
     | .ok t => .ok (t.pushStr (chrs "\\right\\rfloor ")))
  | .ceilN body, t =>
    let t := t.pushStr (chrs "\\left\\lceil ")
    (match texifyContent ctx body t with
     | .error e => .error e
     | .ok t => .ok (t.pushStr (chrs "\\right\\rceil ")))
  | .foreign sp, t =>
    (match sp with
     | some s => .error ⟨s, "not allowed here"⟩
     | none => .ok t)

/-- The child loop shared by `impl Texify for MathNode` and the
`SequenceNode` branch: texify each child left to right, aborting at the
first error (the `?` operator). -/
def texifyList (ctx : Ctx) : ContentList → Texifier → Except SpanError Texifier
  | .nil, t => .ok t
  | .cons c cs, t =>
    (match texifyContent ctx c t with
     | .error e => .error e
     | .ok t => texifyList ctx cs t)

/-- Subscript half of `ScriptNode::texify`: when present, `"_{"`, then the
trimmed rendering of the subscript, then `"}"`. -/
def texifySub (ctx : Ctx) : OptContent → Texifier → Except SpanError Texifier
  | .noneC, t => .ok t
  | .someC s, t =>
    let t := t.pushStr (chrs "_\x7b")
    (match texifyContent ctx s Texifier.new with
     | .error e => .error e
     | .ok sub => .ok ((t.pushStr (unparen sub.finish)).pushStr (chrs "\x7d")))

/-- Superscript half of `ScriptNode::texify`: when present, `"^{"`, then
the trimmed rendering of the superscript, then `"}"`. -/
def texifySup (ctx : Ctx) : OptContent → Texifier → Except SpanError Texifier
  | .noneC, t => .ok t
  | .someC s, t =>
    let t := t.pushStr (chrs "^\x7b")
    (match texifyContent ctx s Texifier.new with
     | .error e => .error e
     | .ok sub => .ok ((t.pushStr (unparen sub.finish)).pushStr (chrs "\x7d")))
end

/-- The default method `Texify::texify_unparen`: render into a fresh
sub-texifier, trim with `unparen`, push into the parent. -/
def texifyUnparen (ctx : Ctx) (c : Content) (t : Texifier) :
    Except SpanError Texifier :=
  match texifyContent ctx c Texifier.new with
  | .error e => .error e
  | .ok sub => .ok (t.pushStr (unparen sub.finish))

/-- The conversion performed by `MathNode::layout`: a fresh `Texifier`,
`self.texify(&mut t)?` over the children, then `t.finish()`. -/
def layoutMathTex (ctx : Ctx) (children : ContentList) :
    Except SpanError (List Char) :=
  match texifyList ctx children Texifier.new with
  | .error e => .error e
  | .ok t => .ok t.finish

/-- The accent-equivalence `match` at the end of `extract`: each accepted
alias maps to the canonical combining codepoint, anything else returns
`None` from `extract`. (`'`'` is the grave backquote alias.) -/
def accentTable (c : Char) : Option Char :=
  match c with
  | '\u0060' | '\u0300' => some '\u0300'
  | '\u00B4' | '\u0301' => some '\u0301'
  | '^' | '\u0302' => some '\u0302'
  | '~' | '\u223C' | '\u0303' => some '\u0303'
  | '\u00AF' | '\u0304' => some '\u0304'
  | '\u203E' | '\u0305' => some '\u0305'
  | '\u02D8' | '\u0306' => some '\u0306'
  | '.' | '\u22C5' | '\u0307' => some '\u0307'
  | '\u00A8' | '\u0308' => some '\u0308'
  | '\u02C7' | '\u030C' => some '\u030C'
  | '\u2192' | '\u20D7' => some '\u20D7'
  | _ => none

/-- Resolution of the single child inside `extract`: a one-character
`AtomNode` yields its character (any other length yields `None` via the
`filter`/`?` chain), a `SymbolNode` resolves through `symmie::get` with
failure reported as `Err("unknown symbol")`, and any other node yields
`None`. -/
def extractChar (ctx : Ctx) : Content → Option (Except String Char)
  | .atom s =>
    (match s with
     | [c] => some (.ok c)
     | _ => none)
  | .symbol name _ =>
    (match ctx.symmie name with
     | some c => some (.ok c)
     | none => some (.error "unknown symbol"))
  | _ => none

/-- Rust `extract`: the accent argument must be a `MathNode` with exactly
one child; the child's character is resolved and then normalized through
the accent-equivalence table. -/
def extract (ctx : Ctx) : Content → Option (Except String Char)
  | .math _ (.cons child .nil) =>
    (match extractChar ctx child with
     | none => none
     | some (.error m) => some (.error m)
     | some (.ok c) =>
       match accentTable c with
       | some canon => some (.ok canon)
       | none => none)
  | _ => none

/-- Rust `AccNode::construct`: run `extract` on the accent argument;
`Some(Ok(c))` builds the node, `Some(Err(msg))` bails with that message,
`None` bails with `"not an accent"` — both at the argument's span. -/
def accConstruct (ctx : Ctx) (base : Content) (accentArg : Content) (span : Nat) :
    Except SpanError Content :=
  match extract ctx accentArg with
  | some (.ok c) => .ok (.acc base c)
  | some (.error msg) => .error ⟨span, msg⟩
  | none => .error ⟨span, "not an accent"⟩

/-- Sample context with empty tables: no symbol entries, no resolvable
names, grapheme count taken as character count (exact for the ASCII
inputs used below). -/
def ctx0 : Ctx :=
  { symbols := [], symmie := fun _ => none, graphemeCount := List.length }

/-- Sample accent-class symbol entry for the combining tilde, as in the
`unicode_math` table. -/
def tildeSym : Sym :=
  { codepoint := '\u0303', name := chrs "tilde", atomType := .accent }

/-- Sample context whose symbol table has exactly the tilde accent entry. -/
def ctx1 : Ctx :=
  { symbols := [tildeSym], symmie := fun _ => none, graphemeCount := List.length }

/-- A `push_str` leaves the support flag clear (the flush inside it resets
both flags before appending). -/
theorem pushStr_support (t : Texifier) (s : List Char) :
    (t.pushStr s).support = false := rfl

/-- A `push_str` leaves the pending-space flag clear. -/
theorem pushStr_space (t : Texifier) (s : List Char) :
    (t.pushStr s).space = false := rfl

/-- Marking support does not touch the buffer. -/
theorem markSupport_tex (t : Texifier) : t.markSupport.tex = t.tex := rfl

/-- Marking support before a `push_str` is invisible when no weak space is
pending: the flush inside `push_str` appends nothing either way and resets
both flags. -/
theorem markSupport_pushStr (t : Texifier) (s : List Char) (h : t.space = false) :
    t.markSupport.pushStr s = t.pushStr s := by
  unfold Texifier.pushStr Texifier.flush Texifier.markSupport
  simp [h]

/-- The character loop of `AtomNode::texify` coincides with the plain
escape loop of the `TextNode` branch whenever the text contains no `'|'`
character (the only character the atom loop marks support around). -/
theorem atomChars_no_bar (ctx : Ctx) (s : List Char) (hb : '|' ∉ s) :
    ∀ t : Texifier, t.atomChars ctx s = t.pushEscapedList ctx s := by
  induction s with
  | nil => intro t; rfl
  | cons c cs ih =>
    intro t
    have hc : (c == '|') = false := by
      simp only [beq_eq_false_iff_ne, ne_eq]
      intro hcc
      exact hb (hcc ▸ List.mem_cons_self c cs)
    have hcs : '|' ∉ cs := fun hm => hb (List.mem_cons_of_mem _ hm)
    unfold Texifier.atomChars Texifier.pushEscapedList
    simp only [List.foldl_cons, hc, Bool.false_eq_true, if_false]
    exact ih hcs (t.pushEscaped ctx c)

/-- C1. The trimmed pass strips the outer parenthesis directives whenever
the scratch buffer merely starts with the opening and ends with the
closing directive; it does not require them to be one matching pair. At
the concrete sequence rendering to the two separate pairs
`\left(a\right)\left(b\right)`, the outer directives do not form a
matching pair, so the claim requires the buffer to be spliced unchanged —
yet the pass strips the affixes, splicing the malformed `a\right)\left(b`. -/
theorem c1_counterexample :
    texifyContent ctx0
        (.math false (.cons (.atom (chrs "(")) (.cons (.atom (chrs "a"))
          (.cons (.atom (chrs ")")) (.cons (.atom (chrs "("))
            (.cons (.atom (chrs "b")) (.cons (.atom (chrs ")")) .nil)))))))
        Texifier.new
      = .ok ⟨chrs "\\left(a\\right)\\left(b\\right)", false, false⟩ ∧
    texifyUnparen ctx0
        (.math false (.cons (.atom (chrs "(")) (.cons (.atom (chrs "a"))
          (.cons (.atom (chrs ")")) (.cons (.atom (chrs "("))
            (.cons (.atom (chrs "b")) (.cons (.atom (chrs ")")) .nil)))))))
        Texifier.new
      = .ok ⟨chrs "a\\right)\\left(b", false, false⟩ ∧
    chrs "a\\right)\\left(b" ≠ chrs "\\left(a\\right)\\left(b\\right)" :=
  ⟨rfl, rfl, by decide⟩

/-- C1 (amended). For every node rendered through the trimmed pass, when
the scratch rendering succeeds with buffer `sub.tex`, the outer layer is
stripped — first 6 and last 7 characters removed — exactly when the buffer
starts with the `\left(` directive and ends with the `\right)` directive
(whether or not those two form a matching pair); in every other case the
buffer is spliced into the parent unchanged. -/
theorem c1_unparen_affix_only (ctx : Ctx) (c : Content) (t sub : Texifier)
    (h : texifyContent ctx c Texifier.new = .ok sub) :
    texifyUnparen ctx c t =
      .ok (t.pushStr
        (if startsWithL sub.tex leftParenD && endsWithL sub.tex rightParenD then
          (sub.tex.drop 6).take (sub.tex.length - 13)
        else sub.tex)) := by
  simp only [texifyUnparen, h, unparen, Texifier.finish]

/-- Witness for the amended C1 theorem at a concrete input whose rendering
`"x"` has neither affix, hence is spliced unchanged. -/
theorem c1_witness :
    texifyContent ctx0 (.atom (chrs "x")) Texifier.new = .ok ⟨chrs "x", false, false⟩ ∧
    texifyUnparen ctx0 (.atom (chrs "x")) Texifier.new
      = .ok (Texifier.new.pushStr
          (if startsWithL (chrs "x") leftParenD && endsWithL (chrs "x") rightParenD then
            ((chrs "x").drop 6).take ((chrs "x").length - 13)
          else chrs "x")) :=
  ⟨rfl, c1_unparen_affix_only ctx0 (.atom (chrs "x")) Texifier.new
    ⟨chrs "x", false, false⟩ rfl⟩

/-- C2. The claim requires a pending weak space to materialize only when
both neighbours are support-marked. In the builder there is a single
support flag, so support on one side suffices: after `LiteralText "a"`
(which marks support at its end), a `Space`, and the plain atom `b`
(which never marks support), the flush still emits the visible `\ `,
while the claim predicts the space is dropped. -/
theorem c2_counterexample :
    texifyList ctx0
        (.cons (.text (chrs "a")) (.cons .space (.cons (.atom (chrs "b")) .nil)))
        Texifier.new
      = .ok ⟨chrs "\\mathrm\x7ba\x7d\\ b", false, false⟩ ∧
    chrs "\\mathrm\x7ba\x7d\\ b" ≠ chrs "\\mathrm\x7ba\x7db" :=
  ⟨rfl, by decide⟩

/-- C2 (amended). A write flushing a pending weak space emits the visible
explicit-space command exactly when the pending-space flag and the single
support flag are both set at flush time — the support flag records that
`support()` ran at some point since the previous flush, on either side of
the space — and after any flush both flags are reset. -/
theorem c2_flush_single_flag (t : Texifier) (s : List Char) :
    t.flush.tex = (if t.space && t.support then t.tex ++ chrs "\\ " else t.tex) ∧
    t.flush.space = false ∧ t.flush.support = false ∧
    (t.pushStr s).tex
      = (if t.space && t.support then t.tex ++ chrs "\\ " else t.tex) ++ s ∧
    (t.pushStr s).space = false ∧ (t.pushStr s).support = false := by
  unfold Texifier.pushStr Texifier.flush
  cases h : t.space && t.support <;> simp [h]

/-- C4. An unknown `Symbol` node raises `UnknownSymbol` only when the node
carries a source span: with no span, the lookup failure falls through the
remaining dispatch and the conversion succeeds, violating the claim's
universal error requirement. -/
theorem c4_counterexample :
    ctx0.symmie "foo" = none ∧
    texifyContent ctx0 (.symbol "foo" none) Texifier.new = .ok Texifier.new :=
  ⟨rfl, rfl⟩

/-- C4 (amended). For every `Symbol` node that carries a source span and
whose name has no table entry, texify raises the `unknown symbol` error
carrying that span; a `Symbol` node whose name resolves emits the escaped
resolved codepoint (whatever its span). -/
theorem c4_symbol_lookup (ctx : Ctx) (name : String) (sp : Nat) (t : Texifier) :
    (ctx.symmie name = none →
      texifyContent ctx (.symbol name (some sp)) t = .error ⟨sp, "unknown symbol"⟩) ∧
    (∀ c, ctx.symmie name = some c →
      ∀ sp' : Option Nat,
        texifyContent ctx (.symbol name sp') t = .ok (t.pushEscaped ctx c)) := by
  constructor
  · intro h; simp only [texifyContent, h]
  · intro c h sp'; simp only [texifyContent, h]

/-- Witness for the amended C4 theorem: the unknown name `"foo"` with span
7 errors with that span. -/
theorem c4_witness :
    ctx0.symmie "foo" = none ∧
    texifyContent ctx0 (.symbol "foo" (some 7)) Texifier.new
      = .error ⟨7, "unknown symbol"⟩ :=
  ⟨rfl, (c4_symbol_lookup ctx0 "foo" 7 Texifier.new).1 rfl⟩

/-- C9. Errors require a source span: a `Symbol` node with an unresolvable
name but no span, and a foreign node with no markup capability and no
span, both convert successfully and leave the builder untouched. -/
theorem c9_spanless_nodes_succeed (ctx : Ctx) (name : String) (t : Texifier)
    (h : ctx.symmie name = none) :
    texifyContent ctx (.symbol name none) t = .ok t ∧
    texifyContent ctx (.foreign none) t = .ok t := by
  refine ⟨?_, rfl⟩
  simp only [texifyContent, h]

/-- Witness for C9 at the unresolvable name `"bar"` and the fresh builder. -/
theorem c9_witness :
    ctx0.symmie "bar" = none ∧
    (texifyContent ctx0 (.symbol "bar" none) Texifier.new = .ok Texifier.new ∧
     texifyContent ctx0 (.foreign none) Texifier.new = .ok Texifier.new) :=
  ⟨rfl, c9_spanless_nodes_succeed ctx0 "bar" Texifier.new rfl⟩

/-- C10. A weak space recorded on an empty buffer is never retained:
`push_space` sets the pending-space flag exactly when the buffer is
non-empty, and consequently a `Space` node standing first in a fresh
conversion changes nothing — the produced markup cannot begin with an
explicit-space command materialized from a weak space. -/
theorem c10_leading_weak_space_dropped (ctx : Ctx) :
    (∀ t : Texifier, ((t.pushSpace).space = true ↔ t.tex ≠ [])) ∧
    (∀ cs : ContentList,
      texifyList ctx (.cons .space cs) Texifier.new = texifyList ctx cs Texifier.new) := by
  constructor
  · intro t
    simp [Texifier.pushSpace]
  · intro cs; rfl

/-- C6. Accent construction normalizes the human-typed alias `~` and the
canonical combining tilde to the same codepoint, so the two constructions
return the very same node and any rendering of them is byte-identical. -/
theorem c6_accent_alias_tilde (ctx : Ctx) (base : Content) (sp : Nat) (t : Texifier) :
    accConstruct ctx base (.math false (.cons (.atom (chrs "~")) .nil)) sp
      = accConstruct ctx base (.math false (.cons (.atom (chrs "\u0303")) .nil)) sp ∧
    accConstruct ctx base (.math false (.cons (.atom (chrs "~")) .nil)) sp
      = .ok (.acc base '\u0303') ∧
    (∀ ca cb : Content,
      accConstruct ctx base (.math false (.cons (.atom (chrs "~")) .nil)) sp = .ok ca →
      accConstruct ctx base (.math false (.cons (.atom (chrs "\u0303")) .nil)) sp = .ok cb →
      texifyContent ctx ca t = texifyContent ctx cb t) := by
  refine ⟨rfl, rfl, ?_⟩
  intro ca cb h1 h2
  injection h1.symm.trans h2 with h3
  rw [h3]

/-- Witness for the C6 theorem: constructing from the `~` alias over the
base atom `a` yields the tilde-accented node, and its rendering equals the
rendering of the node constructed from the canonical codepoint. -/
theorem c6_witness :
    accConstruct ctx0 (.atom (chrs "a"))
        (.math false (.cons (.atom (chrs "~")) .nil)) 0
      = .ok (.acc (.atom (chrs "a")) '\u0303') ∧
    texifyContent ctx0 (.acc (.atom (chrs "a")) '\u0303') Texifier.new
      = texifyContent ctx0 (.acc (.atom (chrs "a")) '\u0303') Texifier.new :=
  ⟨rfl, (c6_accent_alias_tilde ctx0 (.atom (chrs "a")) 0 Texifier.new).2.2
    (.acc (.atom (chrs "a")) '\u0303') (.acc (.atom (chrs "a")) '\u0303') rfl rfl⟩

/-- C7. Rendering an `Accent` node looks the canonical accent codepoint up
among the accent-class entries of the symbol table: with no such entry the
output is exactly the base's rendering (accent silently dropped, no
error); with an entry the output is the accent command, an opening group,
the base's untrimmed rendering into that very builder, and the closing
group. -/
theorem c7_accent_render (ctx : Ctx) (base : Content) (accent : Char) (t : Texifier) :
    (ctx.symbols.find? (fun sym =>
        sym.codepoint == accent && sym.atomType == AtomType.accent) = none →
      texifyContent ctx (.acc base accent) t = texifyContent ctx base t) ∧
    (∀ sym, ctx.symbols.find? (fun sym =>
        sym.codepoint == accent && sym.atomType == AtomType.accent) = some sym →
      texifyContent ctx (.acc base accent) t
        = match texifyContent ctx base
            (((t.pushStr (chrs "\\")).pushStr sym.name).pushStr (chrs "\x7b")) with
          | .error e => .error e
          | .ok u => .ok (u.pushStr (chrs "\x7d"))) := by
  constructor
  · intro h; simp only [texifyContent, h]
  · intro sym h; simp only [texifyContent, h]

/-- Witness for the C7 theorem: in the sample context with the tilde
accent entry, the tilde-accented atom `a` renders to the wrapped accent
command, and in the empty context the accent is dropped. -/
theorem c7_witness :
    ctx1.symbols.find? (fun sym =>
        sym.codepoint == '\u0303' && sym.atomType == AtomType.accent) = some tildeSym ∧
    texifyContent ctx1 (.acc (.atom (chrs "a")) '\u0303') Texifier.new
      = .ok ⟨chrs "\\tilde\x7ba\x7d", false, false⟩ ∧
    texifyContent ctx0 (.acc (.atom (chrs "a")) '\u0303') Texifier.new
      = texifyContent ctx0 (.atom (chrs "a")) Texifier.new :=
  ⟨rfl,
   ((c7_accent_render ctx1 (.atom (chrs "a")) '\u0303' Texifier.new).2 tildeSym rfl).trans rfl,
   (c7_accent_render ctx0 (.atom (chrs "a")) '\u0303' Texifier.new).1 rfl⟩

/-- C5. Converting a multi-grapheme `Atom` and a `LiteralText` with the
same text does not have identical builder effects: at `x`, `Space`,
then the two-grapheme text `ab`, the `LiteralText` version support-marks
the `\mathrm` group so the pending weak space materializes as `\ `, while
the `Atom` version never marks support and the space is dropped — the
outputs differ, refuting the claimed exact equality of output and state
effects. -/
theorem c5_counterexample :
    texifyList ctx0
        (.cons (.atom (chrs "x")) (.cons .space (.cons (.atom (chrs "ab")) .nil)))
        Texifier.new
      = .ok ⟨chrs "x\\mathrm\x7bab\x7d", false, false⟩ ∧
    texifyList ctx0
        (.cons (.atom (chrs "x")) (.cons .space (.cons (.text (chrs "ab")) .nil)))
        Texifier.new
      = .ok ⟨chrs "x\\ \\mathrm\x7bab\x7d", true, false⟩ ∧
    chrs "x\\mathrm\x7bab\x7d" ≠ chrs "x\\ \\mathrm\x7bab\x7d" :=
  ⟨rfl, rfl, by decide⟩

/-- C5 (amended). For a text of more than one grapheme with no `'|'`
character, starting from a builder with no pending weak space, the
multi-grapheme `Atom` and the `LiteralText` conversions append the same
`\mathrm`-wrapped escaped text; they differ exactly in the support
marking: the `Atom` leaves the support flag clear while the `LiteralText`
leaves it set (its final `mark_support`), which is what makes an adjacent
weak space visible only on the `LiteralText` path. -/
theorem c5_multigrapheme_atom_vs_text (ctx : Ctx) (s : List Char) (t : Texifier)
    (hm : ctx.graphemeCount s > 1) (hsp : t.space = false) (hb : '|' ∉ s) :
    texifyContent ctx (.atom s) t
      = .ok (((t.pushStr (chrs "\\mathrm\x7b")).pushEscapedList ctx s).pushStr
          (chrs "\x7d")) ∧
    texifyContent ctx (.text s) t
      = .ok ((((t.pushStr (chrs "\\mathrm\x7b")).pushEscapedList ctx s).pushStr
          (chrs "\x7d")).markSupport) ∧
    ((((t.pushStr (chrs "\\mathrm\x7b")).pushEscapedList ctx s).pushStr
        (chrs "\x7d")).markSupport).tex
      = (((t.pushStr (chrs "\\mathrm\x7b")).pushEscapedList ctx s).pushStr
          (chrs "\x7d")).tex ∧
    (((t.pushStr (chrs "\\mathrm\x7b")).pushEscapedList ctx s).pushStr
        (chrs "\x7d")).support = false ∧
    ((((t.pushStr (chrs "\\mathrm\x7b")).pushEscapedList ctx s).pushStr
        (chrs "\x7d")).markSupport).support = true := by
  refine ⟨?_, ?_, rfl, rfl, rfl⟩
  · simp only [texifyContent, if_pos hm, atomChars_no_bar ctx s hb]
  · simp only [texifyContent, markSupport_pushStr t _ hsp]

/-- Witness for the amended C5 theorem at the two-grapheme text `ab` and
the fresh builder. -/
theorem c5_witness :
    ctx0.graphemeCount (chrs "ab") > 1 ∧
    texifyContent ctx0 (.atom (chrs "ab")) Texifier.new
      = .ok (((Texifier.new.pushStr (chrs "\\mathrm\x7b")).pushEscapedList ctx0
          (chrs "ab")).pushStr (chrs "\x7d")) :=
  ⟨by decide,
   (c5_multigrapheme_atom_vs_text ctx0 (chrs "ab") Texifier.new
     (by decide) rfl (by decide)).1⟩

/-- C8. The child loop of the dispatch is fail-fast: when a prefix of the
children converts successfully and the next child errors, the whole list
conversion returns exactly that error, and the siblings after the failing
child are never reached whatever they are. -/
theorem c8_first_error_aborts (ctx : Ctx) (xs : ContentList) :
    ∀ (zs : ContentList) (y : Content) (t tMid : Texifier) (e : SpanError),
      texifyList ctx xs t = .ok tMid →
      texifyContent ctx y tMid = .error e →
      texifyList ctx (xs.append (.cons y zs)) t = .error e :=
  match xs with
  | .nil => by
    intro zs y t tMid e h1 h2
    simp only [texifyList] at h1
    injection h1 with h1
    subst h1
    simp only [ContentList.append, texifyList, h2]
  | .cons x xs' => by
    intro zs y t tMid e h1 h2
    simp only [texifyList] at h1
    cases hx : texifyContent ctx x t with
    | error e' => rw [hx] at h1; simp at h1
    | ok u =>
      rw [hx] at h1
      simp only [ContentList.append, texifyList, hx]
      exact c8_first_error_aborts ctx xs' zs y u tMid e h1 h2

/-- Witness for the C8 theorem: after the successful prefix `a`, the
unknown spanned symbol `e` aborts the whole list with its error even
though a further sibling follows. -/
theorem c8_witness :
    texifyList ctx0 (.cons (.atom (chrs "a")) .nil) Texifier.new
      = .ok ⟨chrs "a", false, false⟩ ∧
    texifyContent ctx0 (.symbol "e" (some 3)) ⟨chrs "a", false, false⟩
      = .error ⟨3, "unknown symbol"⟩ ∧
    texifyList ctx0 ((ContentList.cons (.atom (chrs "a")) .nil).append
        (.cons (.symbol "e" (some 3)) (.cons (.atom (chrs "z")) .nil))) Texifier.new
      = .error ⟨3, "unknown symbol"⟩ :=
  ⟨rfl, rfl,
   c8_first_error_aborts ctx0 (.cons (.atom (chrs "a")) .nil)
     (.cons (.atom (chrs "z")) .nil) (.symbol "e" (some 3))
     Texifier.new ⟨chrs "a", false, false⟩ ⟨3, "unknown symbol"⟩ rfl rfl⟩

/-- The two messages a `texify` traversal can ever bail with (the third
error of the taxonomy, `not an accent`, arises in `AccNode::construct`,
before any traversal). -/
def knownMsg (e : SpanError) : Prop :=
  e.msg = "unknown symbol" ∨ e.msg = "not allowed here"

/-- A traversal result is a success or one of the defined errors. -/
def okOrKnown : Except SpanError Texifier → Prop
  | .ok _ => True
  | .error e => knownMsg e

mutual
/-- Every content node converts to a success or to one of the defined
errors, from every builder state. -/
theorem texifyContent_total (ctx : Ctx) (c : Content) :
    ∀ t : Texifier, okOrKnown (texifyContent ctx c t) :=
  match c with
  | .space => fun _ => trivial
  | .linebreak => fun _ => trivial
  | .symbol name sp => fun t => by
    simp only [texifyContent]
    cases hsym : ctx.symmie name with
    | some c => simp only [hsym]; trivial
    | none =>
      simp only [hsym]
      cases sp with
      | some s => exact Or.inl rfl
      | none => trivial
  | .text s => fun _ => trivial
  | .seq cs => fun t => texifyList_total ctx cs t
  | .math b cs => fun t => texifyList_total ctx cs t
  | .atom s => fun _ => trivial
  | .acc base accent => fun t => by
    simp only [texifyContent]
    cases hfind : ctx.symbols.find? (fun sym =>
        sym.codepoint == accent && sym.atomType == AtomType.accent) with
    | some sym =>
      simp only [hfind]
      cases hb : texifyContent ctx base
          (((t.pushStr (chrs "\\")).pushStr sym.name).pushStr (chrs "\x7b")) with
      | error e =>
        have hh := texifyContent_total ctx base
          (((t.pushStr (chrs "\\")).pushStr sym.name).pushStr (chrs "\x7b"))
        rw [hb] at hh
        simp only [hb]
        exact hh
      | ok u => simp only [hb]; trivial
    | none =>
      simp only [hfind]
      exact texifyContent_total ctx base t
  | .frac num denom => fun t => by
    simp only [texifyContent]
    cases h1 : texifyContent ctx num Texifier.new with
    | error e =>
      have hh := texifyContent_total ctx num Texifier.new
      rw [h1] at hh
      simp only [h1]
      exact hh
    | ok sub =>
      simp only [h1]
      cases h2 : texifyContent ctx denom Texifier.new with
      | error e =>
        have hh := texifyContent_total ctx denom Texifier.new
        rw [h2] at hh
        simp only [h2]
        exact hh
      | ok sub2 => simp only [h2]; trivial
  | .binom upper lower => fun t => by
    simp only [texifyContent]
    cases h1 : texifyContent ctx upper (t.pushStr (chrs "\\binom\x7b")) with
    | error e =>
      have hh := texifyContent_total ctx upper (t.pushStr (chrs "\\binom\x7b"))
      rw [h1] at hh
      simp only [h1]
      exact hh
    | ok u =>
      simp only [h1]
      cases h2 : texifyContent ctx lower (u.pushStr (chrs "\x7d\x7b")) with
      | error e =>
        have hh := texifyContent_total ctx lower (u.pushStr (chrs "\x7d\x7b"))
        rw [h2] at hh
        simp only [h2]
        exact hh
      | ok v => simp only [h2]; trivial
  | .script base sub sup => fun t => by
    simp only [texifyContent]
    cases h1 : texifyContent ctx base t with
    | error e =>
      have hh := texifyContent_total ctx base t
      rw [h1] at hh
      simp only [h1]
      exact hh
    | ok u =>
      simp only [h1]
      cases h2 : texifySub ctx sub u with
      | error e =>
        have hh := texifySub_total ctx sub u
        rw [h2] at hh
        simp only [h2]
        exact hh
      | ok v =>
        simp only [h2]
        exact texifySup_total ctx sup v
  | .alignPoint i => fun _ => trivial
  | .sqrtN body => fun t => by
    simp only [texifyContent]
    cases h1 : texifyContent ctx body (t.pushStr (chrs "\\sqrt\x7b")) with
    | error e =>
      have hh := texifyContent_total ctx body (t.pushStr (chrs "\\sqrt\x7b"))
      rw [h1] at hh
      simp only [h1]
      exact hh
    | ok u => simp only [h1]; trivial
  | .floorN body => fun t => by
    simp only [texifyContent]
    cases h1 : texifyContent ctx body (t.pushStr (chrs "\\left\\lfloor ")) with
    | error e =>
      have hh := texifyContent_total ctx body (t.pushStr (chrs "\\left\\lfloor "))
      rw [h1] at hh
      simp only [h1]
      exact hh
    | ok u => simp only [h1]; trivial
  | .ceilN body => fun t => by
    simp only [texifyContent]
    cases h1 : texifyContent ctx body (t.pushStr (chrs "\\left\\lceil ")) with
    | error e =>
      have hh := texifyContent_total ctx body (t.pushStr (chrs "\\left\\lceil "))
      rw [h1] at hh
      simp only [h1]
      exact hh
    | ok u => simp only [h1]; trivial
  | .foreign sp => fun t => by
    simp only [texifyContent]
    cases sp with
    | some s => exact Or.inr rfl
    | none => trivial

/-- Every children list converts to a success or to one of the defined
errors, from every builder state. -/
theorem texifyList_total (ctx : Ctx) (cs : ContentList) :
    ∀ t : Texifier, okOrKnown (texifyList ctx cs t) :=
  match cs with
  | .nil => fun _ => trivial
  | .cons c cs' => fun t => by
    simp only [texifyList]
    cases h : texifyContent ctx c t with
    | error e =>
      have hh := texifyContent_total ctx c t
      rw [h] at hh
      simp only [h]
      exact hh
    | ok u =>
      simp only [h]
      exact texifyList_total ctx cs' u

/-- An optional subscript converts to a success or to one of the defined
errors. -/
theorem texifySub_total (ctx : Ctx) (o : OptContent) :
    ∀ t : Texifier, okOrKnown (texifySub ctx o t) :=
  match o with
  | .noneC => fun _ => trivial
  | .someC s => fun t => by
    simp only [texifySub]
    cases h : texifyContent ctx s Texifier.new with
    | error e =>
      have hh := texifyContent_total ctx s Texifier.new
      rw [h] at hh
      simp only [h]
      exact hh
    | ok sub => simp only [h]; trivial

/-- An optional superscript converts to a success or to one of the defined
errors. -/
theorem texifySup_total (ctx : Ctx) (o : OptContent) :
    ∀ t : Texifier, okOrKnown (texifySup ctx o t) :=
  match o with
  | .noneC => fun _ => trivial
  | .someC s => fun t => by
    simp only [texifySup]
    cases h : texifyContent ctx s Texifier.new with
    | error e =>
      have hh := texifyContent_total ctx s Texifier.new
      rw [h] at hh
      simp only [h]
      exact hh
    | ok sub => simp only [h]; trivial
end

/-- C3. The top-level conversion is a total function of the content tree:
for every finite tree over the defined variants it either returns the
markup string or one of the defined errors — the in-traversal errors are
`unknown symbol` and `not allowed here` (the third defined error, `not an
accent`, is raised by accent construction before any traversal). It can
neither hang nor panic, the conversion being definable by structural
recursion on the tree. -/
theorem c3_conversion_total (ctx : Ctx) (children : ContentList) :
    (∃ s, layoutMathTex ctx children = .ok s) ∨
    (∃ e, layoutMathTex ctx children = .error e ∧
      (e.msg = "unknown symbol" ∨ e.msg = "not allowed here")) := by
  have h := texifyList_total ctx children Texifier.new
  unfold layoutMathTex
  cases hr : texifyList ctx children Texifier.new with
  | ok t => exact Or.inl ⟨t.finish, rfl⟩
  | error e =>
    rw [hr] at h
    exact Or.inr ⟨e, rfl, h⟩

end TypstMath
